import Mathlib

/-!
Shallow embedding of the KaviosPix photo-sharing backend (Express + Mongoose)
in Lean 4. The data model mirrors the Mongoose schemas (`Album.model.js`,
`Image.model.js`); each route handler of `routes/album.js` and the image
routes file is translated to a pure function from the request data and the
current database state to an HTTP response and the new state. Dates are
modelled as natural numbers, the MongoDB collections as lists of documents,
`findOne` as `List.find?`, `deleteMany` as `List.filter`, `deleteOne` as
`List.eraseP`, and a `doc.save()` on a fetched document as an in-place
replacement of the documents with the same generated identifier.
External collaborators (Cloudinary, JSON.parse, jwt.verify) are passed in as
explicit parameters describing their outcome for the request at hand.
-/

namespace KaviosPix

/-- Identity claims carried by a verified JWT (`email`, `userId`, `name`,
`picture`), reconstructed per request. -/
structure Principal where
  userId : String
  email : String
  name : String
  picture : String
deriving Repr, DecidableEq

/-- An album document, after `AlbumSchema` in `Album.model.js`. -/
structure Album where
  albumId : String
  name : String
  description : String
  ownerId : String
  ownerEmail : String
  sharedWith : List String
  createdAt : Nat
deriving Repr, DecidableEq

/-- A comment subdocument of an image, after the `comments` entry of
`ImageSchema` in `Image.model.js`. -/
structure ImageComment where
  userId : String
  userEmail : String
  comment : String
  createdAt : Nat
deriving Repr, DecidableEq

/-- An image document, after `ImageSchema` in `Image.model.js`. -/
structure Image where
  imageId : String
  albumId : String
  name : String
  filename : String
  cloudinaryUrl : String
  cloudinaryPublicId : String
  tags : List String
  person : String
  isFavorite : Bool
  comments : List ImageComment
  size : Nat
  uploadedAt : Nat
  uploadedBy : String
deriving Repr, DecidableEq

/-- The database state: the `albums` and `images` MongoDB collections. -/
structure Store where
  albums : List Album
  images : List Image
deriving Repr, DecidableEq

/-- An HTTP response as the handlers produce it: a status code and, for
failures, the JSON `error` message. -/
structure HResponse where
  status : Nat
  error : Option String
deriving Repr, DecidableEq

/-- Shorthand for an error response `res.status(st).json(\x7b error: msg \x7d)`. -/
def errResp (st : Nat) (msg : String) : HResponse :=
  { status := st, error := some msg }

/-- Shorthand for a success response with the given status. -/
def okResp (st : Nat) : HResponse :=
  { status := st, error := none }

/-- `Album.findOne(\x7b albumId \x7d)`. -/
def findAlbum (s : Store) (albumId : String) : Option Album :=
  s.albums.find? (fun a => a.albumId == albumId)

/-- `Image.findOne(\x7b imageId, albumId \x7d)`. -/
def findImage (s : Store) (imageId albumId : String) : Option Image :=
  s.images.find? (fun i => i.imageId == imageId && i.albumId == albumId)

/-- `album.save()` on a previously fetched album document: replaces the
stored documents carrying the same `albumId`. -/
def saveAlbum (s : Store) (album : Album) : Store :=
  { s with albums := s.albums.map (fun a => if a.albumId == album.albumId then album else a) }

/-- `image.save()` on a previously fetched image document: replaces the
stored documents carrying the same `imageId`. -/
def saveImage (s : Store) (image : Image) : Store :=
  { s with images := s.images.map (fun i => if i.imageId == image.imageId then image else i) }

/-- The access check repeated in the album and image handlers:
`album.ownerId === req.user.userId || album.sharedWith.includes(req.user.email)`. -/
def hasAccess (user : Principal) (album : Album) : Bool :=
  album.ownerId == user.userId || album.sharedWith.contains user.email

/-- Truthiness of an optional JS string: `undefined` and `""` are falsy. -/
def truthyStr : Option String → Option String
  | some t => if t == "" then none else some t
  | none => none

/-- `POST /albums` — create album. `name` and `description` come from
`req.body` and may be absent; `freshId` is the generated `uuidv4()` and
`now` the schema default for `createdAt`. -/
def createAlbum (s : Store) (user : Principal) (name description : Option String)
    (freshId : String) (now : Nat) : HResponse × Store :=
  match truthyStr name with
  | none => (errResp 400 "Album name is required", s)
  | some n =>
      (okResp 201,
        { s with albums := s.albums ++
            [{ albumId := freshId
               name := n
               description := description.getD ""
               ownerId := user.userId
               ownerEmail := user.email
               sharedWith := []
               createdAt := now }] })

/-- `GET /albums/:albumId` — fetch a single album. -/
def getAlbum (s : Store) (user : Principal) (albumId : String) : HResponse :=
  match findAlbum s albumId with
  | none => errResp 404 "Album not found"
  | some album =>
      if !(hasAccess user album) then
        errResp 403 "You do not have access to this album"
      else
        okResp 200

/-- The value stored by `album.description = description || album.description`
in the update handler. -/
def newDescVal (album : Album) (description : Option String) : String :=
  match truthyStr description with
  | none => album.description
  | some d => d

/-- `POST /albums/:albumId` — update the album description (owner only). -/
def updateDescription (s : Store) (user : Principal) (albumId : String)
    (description : Option String) : HResponse × Store :=
  match findAlbum s albumId with
  | none => (errResp 404 "Album not found", s)
  | some album =>
      if album.ownerId != user.userId then
        (errResp 403 "Only the album owner can update it", s)
      else
        let album2 := { album with description := newDescVal album description }
        (okResp 200, saveAlbum s album2)

/-- A character admissible in the `[^\s@]` class of the share handler's
email pattern: neither whitespace nor `@`. -/
def emailCharOk (c : Char) : Bool :=
  !c.isWhitespace && c != '@'

/-- Splits a character list at the first occurrence of `c`, if any. -/
def breakAt (c : Char) : List Char → Option (List Char × List Char)
  | [] => none
  | x :: xs =>
      if x == c then some ([], xs)
      else
        match breakAt c xs with
        | none => none
        | some (l, r) => some (x :: l, r)

/-- Whether the list holds a `'.'` that is not its last element. -/
def dotNotLast : List Char → Bool
  | [] => false
  | x :: xs => (x == '.' && !xs.isEmpty) || dotNotLast xs

/-- Whether the list holds a `'.'` that is neither first nor last, i.e. it
decomposes as nonempty `++ '.' ::` nonempty. -/
def hasInnerDot : List Char → Bool
  | [] => false
  | _ :: xs => dotNotLast xs

/-- The share handler's email validation
`/^[^\s@]+@[^\s@]+\.[^\s@]+$/.test(email)`: exactly one `@`, a nonempty
whitespace-free local part before it, and a domain part that is
whitespace-free, `@`-free and decomposes around an inner dot. -/
def validEmail (s : String) : Bool :=
  match breakAt '@' s.toList with
  | none => false
  | some (loc, dom) =>
      !loc.isEmpty && loc.all emailCharOk && dom.all emailCharOk && hasInnerDot dom

/-- One step of the share handler's `forEach` push:
`if (!album.sharedWith.includes(email) && email !== album.ownerEmail)
album.sharedWith.push(email)`. -/
def addShareEmail (ownerEmail : String) (shared : List String) (email : String) : List String :=
  if !(shared.contains email) && email != ownerEmail then shared ++ [email] else shared

/-- The whole `validEmails.forEach(...)` loop of the share handler. -/
def addShareEmails (ownerEmail : String) (shared emails : List String) : List String :=
  emails.foldl (addShareEmail ownerEmail) shared

/-- The `emails` field of a share request body: absent, not an array, or an
array of strings. -/
inductive EmailsField where
  | arr (emails : List String)
  | notArr
deriving Repr, DecidableEq

/-- `POST /albums/:albumId/share` — add users by email (owner only). -/
def shareAlbum (s : Store) (user : Principal) (albumId : String)
    (emails : Option EmailsField) : HResponse × Store :=
  match emails with
  | none => (errResp 400 "Valid email array is required", s)
  | some EmailsField.notArr => (errResp 400 "Valid email array is required", s)
  | some (EmailsField.arr es) =>
      if es.isEmpty then (errResp 400 "Valid email array is required", s)
      else
        match findAlbum s albumId with
        | none => (errResp 404 "Album not found", s)
        | some album =>
            if album.ownerId != user.userId then
              (errResp 403 "Only the album owner can share it", s)
            else
              if (es.filter validEmail).isEmpty then
                (errResp 400 "No valid emails provided", s)
              else
                (okResp 200,
                  saveAlbum s
                    { album with
                        sharedWith := addShareEmails album.ownerEmail album.sharedWith
                          (es.filter validEmail) })

/-- `DELETE /albums/:albumId` — delete the album (owner only): first
`Image.deleteMany(\x7b albumId \x7d)`, then `Album.deleteOne(\x7b albumId \x7d)`. -/
def deleteAlbum (s : Store) (user : Principal) (albumId : String) : HResponse × Store :=
  match findAlbum s albumId with
  | none => (errResp 404 "Album not found", s)
  | some album =>
      if album.ownerId != user.userId then
        (errResp 403 "Only the album owner can delete it", s)
      else
        (okResp 200,
          { images := s.images.filter (fun i => !(i.albumId == albumId))
            albums := s.albums.eraseP (fun a => a.albumId == albumId) })

/-- The uploaded file's metadata as multer exposes it (`req.file`). -/
structure FileInfo where
  originalname : String
deriving Repr, DecidableEq

/-- The Cloudinary upload result consumed by the upload handler. -/
structure CloudinaryResult where
  secureUrl : String
  publicId : String
  bytes : Nat
deriving Repr, DecidableEq

/-- The `tags` field of an upload request body: a literal array or a string
(multipart form fields arrive as strings). -/
inductive TagsField where
  | arr (l : List String)
  | str (s : String)
deriving Repr, DecidableEq

/-- The upload handler's tag parsing: absent or empty-string `tags` give
`[]`; an array is taken as-is; a string goes through `JSON.parse`, whose
outcome is the explicit `decode` parameter, and a thrown parse error is
caught into `[]`. -/
def parseTags (decode : String → Option (List String)) : Option TagsField → List String
  | none => []
  | some (TagsField.arr l) => l
  | some (TagsField.str s) =>
      if s == "" then []
      else
        match decode s with
        | some l => l
        | none => []

/-- `POST /albums/:albumId/images` — upload an image. `file` is `req.file`
after multer's MIME/size gate, `cloud` the successful Cloudinary result,
`freshId` the generated `uuidv4()` and `now` the schema default for
`uploadedAt`. -/
def uploadImage (decode : String → Option (List String)) (s : Store) (user : Principal)
    (albumId : String) (file : Option FileInfo) (tags : Option TagsField)
    (person : Option String) (isFavorite : Option String)
    (cloud : CloudinaryResult) (freshId : String) (now : Nat) : HResponse × Store :=
  match file with
  | none => (errResp 400 "No file uploaded", s)
  | some f =>
      match findAlbum s albumId with
      | none => (errResp 404 "Album not found", s)
      | some album =>
          if !(hasAccess user album) then
            (errResp 403 "You do not have access to this album", s)
          else
            (okResp 201,
              { s with images := s.images ++
                  [{ imageId := freshId
                     albumId := albumId
                     name := f.originalname
                     filename := f.originalname
                     cloudinaryUrl := cloud.secureUrl
                     cloudinaryPublicId := cloud.publicId
                     tags := parseTags decode tags
                     person := person.getD ""
                     isFavorite := isFavorite == some "true"
                     comments := []
                     size := cloud.bytes
                     uploadedAt := now
                     uploadedBy := user.userId }] })

/-- `PUT /albums/:albumId/images/:imageId/favorite` — star/unstar an image:
`image.isFavorite = isFavorite !== undefined ? isFavorite : !image.isFavorite`. -/
def setFavorite (s : Store) (user : Principal) (albumId imageId : String)
    (isFavorite : Option Bool) : HResponse × Store :=
  match findAlbum s albumId with
  | none => (errResp 404 "Album not found", s)
  | some album =>
      if !(hasAccess user album) then
        (errResp 403 "You do not have access to this album", s)
      else
        match findImage s imageId albumId with
        | none => (errResp 404 "Image not found", s)
        | some image =>
            (okResp 200,
              saveImage s
                { image with
                    isFavorite := match isFavorite with
                      | some b => b
                      | none => !image.isFavorite })

/-- JS `String.prototype.trim`: strips leading and trailing whitespace. -/
def trimStr (s : String) : String :=
  String.mk (((s.data.dropWhile Char.isWhitespace).reverse.dropWhile Char.isWhitespace).reverse)

/-- `POST /albums/:albumId/images/:imageId/comments` — append a comment.
The body's `comment` field may be absent; `now` is the `createdAt` value.
The guard is `!comment || comment.trim() === ''`. -/
def addComment (s : Store) (user : Principal) (albumId imageId : String)
    (comment : Option String) (now : Nat) : HResponse × Store :=
  match comment with
  | none => (errResp 400 "Comment cannot be empty", s)
  | some c =>
      if c == "" || trimStr c == "" then (errResp 400 "Comment cannot be empty", s)
      else
        match findAlbum s albumId with
        | none => (errResp 404 "Album not found", s)
        | some album =>
            if !(hasAccess user album) then
              (errResp 403 "You do not have access to this album", s)
            else
              match findImage s imageId albumId with
              | none => (errResp 404 "Image not found", s)
              | some image =>
                  (okResp 200,
                    saveImage s
                      { image with
                          comments := image.comments ++
                            [{ userId := user.userId
                               userEmail := user.email
                               comment := trimStr c
                               createdAt := now }] })

/-- `DELETE /albums/:albumId/images/:imageId` — delete an image (album owner
or uploader). The Cloudinary `destroy` failure is swallowed, then
`Image.deleteOne(\x7b imageId \x7d)` runs unconditionally. -/
def deleteImage (s : Store) (user : Principal) (albumId imageId : String) :
    HResponse × Store :=
  match findAlbum s albumId with
  | none => (errResp 404 "Album not found", s)
  | some album =>
      match findImage s imageId albumId with
      | none => (errResp 404 "Image not found", s)
      | some image =>
          if !(album.ownerId == user.userId || image.uploadedBy == user.userId) then
            (errResp 403 "You do not have permission to delete this image", s)
          else
            (okResp 200, { s with images := s.images.eraseP (fun i => i.imageId == imageId) })

/-- The outcome of `jwt.verify(token, secret)`: a decoded claims object, or
one of the two thrown-error shapes (a malformed/invalid-signature token and
an expired token both throw). -/
inductive JwtOutcome where
  | ok (claims : Principal)
  | malformedTok
  | expiredTok
deriving Repr, DecidableEq

/-- The token selection of the `verifyJWT` middleware:
`req.cookies.jwt_token || req.headers.authorization?.split(' ')[1]` (the
cookie, when truthy, takes precedence over the second word of the
`Authorization` header). -/
def extractToken (cookieTok header : Option String) : Option String :=
  match truthyStr cookieTok with
  | some t => some t
  | none =>
      match header with
      | none => none
      | some h => (h.splitOn " ")[1]?

/-- The `verifyJWT` middleware of the server entry file: a 401 when the
selected token is falsy, otherwise `jwt.verify` with every thrown error
caught into one 401 response. -/
def verifyJWT (cookieTok header : Option String)
    (verify : String → JwtOutcome) : Except HResponse Principal :=
  match truthyStr (extractToken cookieTok header) with
  | none => Except.error (errResp 401 "No token provided")
  | some t =>
      match verify t with
      | JwtOutcome.ok claims => Except.ok claims
      | JwtOutcome.malformedTok => Except.error (errResp 401 "Invalid or expired token")
      | JwtOutcome.expiredTok => Except.error (errResp 401 "Invalid or expired token")

/-! Concrete sample data used to exercise the handlers on closed inputs. -/

/-- A sample owner principal. -/
def ownerPrincipal : Principal :=
  { userId := "u1", email := "owner@x.com", name := "O", picture := "" }

/-- A sample principal listed in `sharedWith`. -/
def memberPrincipal : Principal :=
  { userId := "u2", email := "m@x.com", name := "M", picture := "" }

/-- A sample principal with no relationship to the album. -/
def strangerPrincipal : Principal :=
  { userId := "u3", email := "z@x.com", name := "Z", picture := "" }

/-- A sample album owned by `ownerPrincipal` and shared with
`memberPrincipal`. -/
def sampleAlbum : Album :=
  { albumId := "A1", name := "Trip", description := "", ownerId := "u1",
    ownerEmail := "owner@x.com", sharedWith := ["m@x.com"], createdAt := 0 }

/-- A sample image in `sampleAlbum`, uploaded by `memberPrincipal`. -/
def sampleImage : Image :=
  { imageId := "I1", albumId := "A1", name := "p.jpg", filename := "p.jpg",
    cloudinaryUrl := "http://u", cloudinaryPublicId := "pid", tags := ["beach"],
    person := "", isFavorite := false, comments := [], size := 10,
    uploadedAt := 0, uploadedBy := "u2" }

/-- A sample database state holding the album and the image. -/
def sampleStore : Store :=
  { albums := [sampleAlbum], images := [sampleImage] }

/-- A sample file and a sample Cloudinary result for upload requests. -/
def sampleFile : FileInfo := { originalname := "p.jpg" }

/-- A sample Cloudinary result for upload requests. -/
def sampleCloud : CloudinaryResult :=
  { secureUrl := "http://u", publicId := "pid", bytes := 10 }

/-! Helper lemmas about the list-level database primitives. -/

/-- After a `save` (replacement of every document matching `q` by `y`), a
`findOne` whose predicate `p` is at least as strict as `q` and accepts `y`
returns the saved document, provided it returned some document before. -/
theorem find_map_replace {α : Type} (p q : α → Bool) (y : α)
    (hpq : ∀ a, p a = true → q a = true) (hpy : p y = true) :
    ∀ (l : List α) (x : α), l.find? p = some x →
      (l.map (fun a => if q a then y else a)).find? p = some y := by
  intro l
  induction l with
  | nil => intro x h; simp at h
  | cons a as ih =>
      intro x h
      simp only [List.map_cons]
      by_cases hqa : q a
      · rw [if_pos hqa]
        exact List.find?_cons_of_pos _ hpy
      · rw [if_neg hqa]
        have hpa : ¬ p a := fun hp => hqa (hpq a hp)
        rw [List.find?_cons_of_neg _ hpa]
        rw [List.find?_cons_of_neg _ hpa] at h
        exact ih x h

/-- After `deleteOne` on a key, a `findOne` on that key finds nothing, as
long as the stored keys are pairwise distinct (the schemas declare the
generated identifiers `unique`). -/
theorem find_eraseP_none {α : Type} (f : α → String) (k : String) :
    ∀ l : List α, (l.map f).Nodup →
      (l.eraseP (fun a => f a == k)).find? (fun a => f a == k) = none := by
  intro l
  induction l with
  | nil => intro _; rfl
  | cons a as ih =>
      intro hnd
      rw [List.map_cons, List.nodup_cons] at hnd
      obtain ⟨hna, hnd⟩ := hnd
      by_cases hpa : (f a == k) = true
      · have hstep : List.eraseP (fun x => f x == k) (a :: as) = as := by
          simp [List.eraseP_cons, hpa]
        rw [hstep, List.find?_eq_none]
        intro x hx hfx
        have hk : f a = k := eq_of_beq hpa
        have hfxk : f x = k := eq_of_beq hfx
        exact hna (by rw [hk, ← hfxk]; exact List.mem_map_of_mem f hx)
      · have hstep : List.eraseP (fun x => f x == k) (a :: as) =
            a :: List.eraseP (fun x => f x == k) as := by
          simp [List.eraseP_cons, hpa]
        have hskip : List.find? (fun x => f x == k)
            (a :: List.eraseP (fun x => f x == k) as) =
            List.find? (fun x => f x == k) (List.eraseP (fun x => f x == k) as) := by
          simp [List.find?, hpa]
        rw [hstep, hskip]
        exact ih hnd

/-! Helper lemmas about the share handler's `forEach` push loop. -/

/-- One push step never introduces the owner's email. -/
theorem owner_not_mem_addShareEmail (ownerEmail : String) (shared : List String)
    (email : String) (h : ownerEmail ∉ shared) :
    ownerEmail ∉ addShareEmail ownerEmail shared email := by
  unfold addShareEmail
  by_cases hc : (!(shared.contains email) && (email != ownerEmail)) = true
  · rw [if_pos hc]
    have hne : email ≠ ownerEmail := by
      have h2 := ((Bool.and_eq_true _ _).mp hc).right
      simpa [bne_iff_ne] using h2
    intro hmem
    rcases List.mem_append.mp hmem with h1 | h2
    · exact h h1
    · exact hne (List.mem_singleton.mp h2).symm
  · rw [if_neg hc]; exact h

/-- The whole push loop never introduces the owner's email. -/
theorem owner_not_mem_addShareEmails (ownerEmail : String) :
    ∀ (emails shared : List String), ownerEmail ∉ shared →
      ownerEmail ∉ addShareEmails ownerEmail shared emails := by
  intro emails
  induction emails with
  | nil => intro shared h; exact h
  | cons e es ih =>
      intro shared h
      exact ih (addShareEmail ownerEmail shared e)
        (owner_not_mem_addShareEmail ownerEmail shared e h)

/-- One push step preserves freedom from duplicates. -/
theorem nodup_addShareEmail (ownerEmail : String) (shared : List String)
    (email : String) (h : shared.Nodup) :
    (addShareEmail ownerEmail shared email).Nodup := by
  unfold addShareEmail
  by_cases hc : (!(shared.contains email) && (email != ownerEmail)) = true
  · rw [if_pos hc]
    have h1 := ((Bool.and_eq_true _ _).mp hc).left
    rw [Bool.not_eq_true'] at h1
    have hnm : email ∉ shared := by
      intro hmem
      have hco : shared.contains email = true := List.elem_iff.mpr hmem
      rw [h1] at hco
      exact Bool.false_ne_true hco
    simp [List.nodup_append, h, hnm]
  · rw [if_neg hc]; exact h

/-- The whole push loop preserves freedom from duplicates. -/
theorem nodup_addShareEmails (ownerEmail : String) :
    ∀ (emails shared : List String), shared.Nodup →
      (addShareEmails ownerEmail shared emails).Nodup := by
  intro emails
  induction emails with
  | nil => intro shared h; exact h
  | cons e es ih =>
      intro shared h
      exact ih (addShareEmail ownerEmail shared e)
        (nodup_addShareEmail ownerEmail shared e h)

/-- Pushing an email that is already shared, or that is the owner's email,
changes nothing. -/
theorem addShareEmail_noop (ownerEmail : String) (shared : List String)
    (email : String) (h : email ∈ shared ∨ email = ownerEmail) :
    addShareEmail ownerEmail shared email = shared := by
  have hcond : (!(shared.contains email) && (email != ownerEmail)) = false := by
    rcases h with h | h
    · have hco : shared.contains email = true := List.elem_iff.mpr h
      rw [hco]
      rfl
    · subst h
      rw [bne_self_eq_false]
      exact Bool.and_false _
  unfold addShareEmail
  rw [if_neg fun hc => Bool.false_ne_true (hcond ▸ hc)]

/-- A share request in which every email is already shared or is the
owner's email leaves `sharedWith` unchanged. -/
theorem addShareEmails_noop (ownerEmail : String) :
    ∀ (emails shared : List String),
      (∀ e ∈ emails, e ∈ shared ∨ e = ownerEmail) →
      addShareEmails ownerEmail shared emails = shared := by
  intro emails
  induction emails with
  | nil => intro shared _; rfl
  | cons e es ih =>
      intro shared h
      have h1 : addShareEmail ownerEmail shared e = shared :=
        addShareEmail_noop ownerEmail shared e (h e (List.mem_cons_self e es))
      show (addShareEmail ownerEmail shared e |> (addShareEmails ownerEmail · es)) = shared
      rw [h1]
      exact ih shared (fun x hx => h x (List.mem_cons_of_mem e hx))

/-- After `album.save()`, looking the album up by its key returns the saved
document, provided the lookup previously returned the edited document. -/
theorem findAlbum_saveAlbum (s : Store) (album album2 : Album)
    (hA : findAlbum s album.albumId = some album)
    (hid : album2.albumId = album.albumId) :
    findAlbum (saveAlbum s album2) album.albumId = some album2 := by
  unfold findAlbum saveAlbum at *
  have hpq : ∀ a : Album, (a.albumId == album.albumId) = true →
      (a.albumId == album2.albumId) = true := by
    intro a h
    rw [hid]
    exact h
  have hpy : (album2.albumId == album.albumId) = true := by
    rw [hid]
    exact beq_self_eq_true _
  exact find_map_replace _ _ album2 hpq hpy s.albums album hA

/-- After `image.save()`, looking the image up by its keys returns the saved
document, provided the lookup previously returned the edited document. -/
theorem findImage_saveImage (s : Store) (image image2 : Image) (iid aid : String)
    (hI : findImage s iid aid = some image)
    (hid : image2.imageId = image.imageId) (haid : image2.albumId = image.albumId) :
    findImage (saveImage s image2) iid aid = some image2 := by
  unfold findImage saveImage at *
  have hp := List.find?_some hI
  have hp1 := ((Bool.and_eq_true _ _).mp hp).left
  have hpq : ∀ i : Image, (i.imageId == iid && i.albumId == aid) = true →
      (i.imageId == image2.imageId) = true := by
    intro i h
    have h1 := ((Bool.and_eq_true _ _).mp h).left
    rw [hid, beq_iff_eq, eq_of_beq hp1]
    exact eq_of_beq h1
  have hpy : (image2.imageId == iid && image2.albumId == aid) = true := by
    rw [hid, haid]
    exact hp
  exact find_map_replace _ _ image2 hpq hpy s.images image hI

/-- C1: for every album, `sharedWith` never contains the owner's email and
never contains duplicates: album creation initialises `sharedWith` to the
empty list, and the share operation saves
`addShareEmails ownerEmail sharedWith validEmails`, which appends a valid
email only if it is not already present and not equal to `ownerEmail`; so
sharing an email already present, or equal to the owner's email, leaves
`sharedWith` unchanged. -/
theorem C1_sharedWith_owner_free_nodup :
    (∀ (s : Store) (u : Principal) (n : String) (d : Option String) (fid : String) (now : Nat),
        n ≠ "" →
        (createAlbum s u (some n) d fid now).2.albums =
          s.albums ++ [{ albumId := fid, name := n, description := d.getD "",
                         ownerId := u.userId, ownerEmail := u.email,
                         sharedWith := [], createdAt := now }])
    ∧ (∀ (s : Store) (u : Principal) (es : List String) (album : Album),
        findAlbum s album.albumId = some album →
        u.userId = album.ownerId →
        es.filter validEmail ≠ [] →
        (findAlbum (shareAlbum s u album.albumId (some (EmailsField.arr es))).2 album.albumId =
            some { album with
                     sharedWith := addShareEmails album.ownerEmail album.sharedWith
                       (es.filter validEmail) })
        ∧ (album.ownerEmail ∉ album.sharedWith →
             album.ownerEmail ∉
               addShareEmails album.ownerEmail album.sharedWith (es.filter validEmail))
        ∧ (album.sharedWith.Nodup →
             (addShareEmails album.ownerEmail album.sharedWith (es.filter validEmail)).Nodup)
        ∧ ((∀ e ∈ es.filter validEmail, e ∈ album.sharedWith ∨ e = album.ownerEmail) →
             addShareEmails album.ownerEmail album.sharedWith (es.filter validEmail) =
               album.sharedWith)) := by
  constructor
  · intro s u n d fid now hn
    have ht : truthyStr (some n) = some n := by
      simp [truthyStr, hn]
    simp [createAlbum, ht]
  · intro s u es album hfind howner hval
    have hes : es.isEmpty = false := by
      cases es with
      | nil => simp at hval
      | cons a as => rfl
    have hvi : (es.filter validEmail).isEmpty = false := by
      cases hfe : es.filter validEmail with
      | nil => exact absurd hfe hval
      | cons a as => rfl
    have hosh : (album.ownerId != u.userId) = false := by
      rw [← howner, bne_self_eq_false]
    refine ⟨?_, owner_not_mem_addShareEmails album.ownerEmail (es.filter validEmail)
        album.sharedWith,
      nodup_addShareEmails album.ownerEmail (es.filter validEmail) album.sharedWith,
      addShareEmails_noop album.ownerEmail (es.filter validEmail) album.sharedWith⟩
    have hshare : shareAlbum s u album.albumId (some (EmailsField.arr es)) =
        (okResp 200,
          saveAlbum s
            { album with
                sharedWith := addShareEmails album.ownerEmail album.sharedWith
                  (es.filter validEmail) }) := by
      simp [shareAlbum, hes, hfind, hosh, hvi]
    rw [hshare]
    exact findAlbum_saveAlbum s album _ hfind rfl

/-- C1 witness: sharing `sampleAlbum` (owned by `u1`, shared with
`m@x.com`) with the owner's email and a fresh email, as the owner. -/
theorem C1_witness :
    (findAlbum sampleStore sampleAlbum.albumId = some sampleAlbum
      ∧ ownerPrincipal.userId = sampleAlbum.ownerId
      ∧ ["owner@x.com", "new@x.com", "bad"].filter validEmail ≠ [])
    ∧ findAlbum (shareAlbum sampleStore ownerPrincipal sampleAlbum.albumId
          (some (EmailsField.arr ["owner@x.com", "new@x.com", "bad"]))).2 sampleAlbum.albumId =
        some { sampleAlbum with
                 sharedWith := addShareEmails sampleAlbum.ownerEmail sampleAlbum.sharedWith
                   (["owner@x.com", "new@x.com", "bad"].filter validEmail) } :=
  ⟨⟨by decide, rfl, by decide⟩,
    (C1_sharedWith_owner_free_nodup.2 sampleStore ownerPrincipal
      ["owner@x.com", "new@x.com", "bad"] sampleAlbum (by decide) rfl (by decide)).1⟩

/-- C2: the read-access predicate returns true exactly when the principal
is the owner or their email is in `sharedWith`; when it is false the single-
album fetch and the upload handler answer 403 Forbidden, which differs from
the 404 NotFound response. -/
theorem C2_hasAccess_characterisation (p : Principal) (a : Album) :
    (hasAccess p a = true ↔ (p.userId = a.ownerId ∨ p.email ∈ a.sharedWith))
    ∧ (∀ s : Store, findAlbum s a.albumId = some a → hasAccess p a = false →
        getAlbum s p a.albumId = errResp 403 "You do not have access to this album"
        ∧ (∀ (decode : String → Option (List String)) (f : FileInfo)
             (tags : Option TagsField) (person fav : Option String)
             (cloud : CloudinaryResult) (fid : String) (now : Nat),
             uploadImage decode s p a.albumId (some f) tags person fav cloud fid now =
               (errResp 403 "You do not have access to this album", s))
        ∧ errResp 403 "You do not have access to this album" ≠
            errResp 404 "Album not found") := by
  constructor
  · unfold hasAccess
    rw [Bool.or_eq_true, beq_iff_eq]
    constructor
    · rintro (h | h)
      · exact Or.inl h.symm
      · exact Or.inr (List.elem_iff.mp h)
    · rintro (h | h)
      · exact Or.inl h.symm
      · exact Or.inr (List.elem_iff.mpr h)
  · intro s hfind hacc
    refine ⟨?_, ?_, by decide⟩
    · simp [getAlbum, hfind, hacc]
    · intro decode f tags person fav cloud fid now
      simp [uploadImage, hfind, hacc]

/-- C2 witness: the stranger principal is neither owner of `sampleAlbum`
nor in its `sharedWith`, and gets 403 from the single-album fetch. -/
theorem C2_witness :
    (findAlbum sampleStore sampleAlbum.albumId = some sampleAlbum
      ∧ hasAccess strangerPrincipal sampleAlbum = false)
    ∧ (hasAccess strangerPrincipal sampleAlbum = true ↔
        (strangerPrincipal.userId = sampleAlbum.ownerId ∨
          strangerPrincipal.email ∈ sampleAlbum.sharedWith))
    ∧ getAlbum sampleStore strangerPrincipal sampleAlbum.albumId =
        errResp 403 "You do not have access to this album" :=
  ⟨⟨by decide, by decide⟩,
    (C2_hasAccess_characterisation strangerPrincipal sampleAlbum).1,
    ((C2_hasAccess_characterisation strangerPrincipal sampleAlbum).2 sampleStore
      (by decide) (by decide)).1⟩

/-- C3: album deletion succeeds only for the owner (otherwise 403 and the
state is untouched); on success the response is 200, no image with the
album's `albumId` remains, and a subsequent fetch of the album answers 404
NotFound. The stored `albumId` keys are assumed pairwise distinct, as the
schema declares them `unique`. -/
theorem C3_deleteAlbum_cascade (s : Store) (u : Principal) (album : Album)
    (hfind : findAlbum s album.albumId = some album)
    (hkeys : (s.albums.map Album.albumId).Nodup) :
    (u.userId ≠ album.ownerId →
       deleteAlbum s u album.albumId = (errResp 403 "Only the album owner can delete it", s))
    ∧ (u.userId = album.ownerId →
       (deleteAlbum s u album.albumId).1 = okResp 200
       ∧ (∀ i ∈ (deleteAlbum s u album.albumId).2.images, i.albumId ≠ album.albumId)
       ∧ findAlbum (deleteAlbum s u album.albumId).2 album.albumId = none
       ∧ ∀ q : Principal, getAlbum (deleteAlbum s u album.albumId).2 q album.albumId =
           errResp 404 "Album not found") := by
  constructor
  · intro hne
    have hosh : (album.ownerId != u.userId) = true := by
      rw [bne_iff_ne]
      exact fun h => hne h.symm
    simp [deleteAlbum, hfind, hosh]
  · intro heq
    have hosh : (album.ownerId != u.userId) = false := by
      rw [← heq, bne_self_eq_false]
    have hdel : deleteAlbum s u album.albumId =
        (okResp 200,
          { images := s.images.filter (fun i => !(i.albumId == album.albumId))
            albums := s.albums.eraseP (fun a => a.albumId == album.albumId) }) := by
      simp [deleteAlbum, hfind, hosh]
    rw [hdel]
    have hnone : findAlbum
        { images := s.images.filter (fun i => !(i.albumId == album.albumId))
          albums := s.albums.eraseP (fun a => a.albumId == album.albumId) }
        album.albumId = none := by
      unfold findAlbum
      exact find_eraseP_none Album.albumId album.albumId s.albums hkeys
    refine ⟨rfl, ?_, hnone, fun q => by simp [getAlbum, hnone]⟩
    intro i hi
    have hb := List.of_mem_filter hi
    simpa using hb

/-- C3 witness: the owner deletes `sampleAlbum`; the member cannot. -/
theorem C3_witness :
    (findAlbum sampleStore sampleAlbum.albumId = some sampleAlbum
      ∧ (sampleStore.albums.map Album.albumId).Nodup
      ∧ memberPrincipal.userId ≠ sampleAlbum.ownerId
      ∧ ownerPrincipal.userId = sampleAlbum.ownerId)
    ∧ deleteAlbum sampleStore memberPrincipal sampleAlbum.albumId =
        (errResp 403 "Only the album owner can delete it", sampleStore)
    ∧ findAlbum (deleteAlbum sampleStore ownerPrincipal sampleAlbum.albumId).2
        sampleAlbum.albumId = none :=
  ⟨⟨by decide, by decide, by decide, rfl⟩,
    (C3_deleteAlbum_cascade sampleStore memberPrincipal sampleAlbum
      (by decide) (by decide)).1 (by decide),
    ((C3_deleteAlbum_cascade sampleStore ownerPrincipal sampleAlbum
      (by decide) (by decide)).2 rfl).2.2.1⟩

/-- C4: for an existing album and image, image deletion succeeds (200)
exactly when the caller is the album owner or the uploader; otherwise the
response is 403 Forbidden, the state is untouched, and the image record is
still found. -/
theorem C4_deleteImage_permission (s : Store) (u : Principal) (album : Album) (image : Image)
    (hA : findAlbum s image.albumId = some album)
    (hI : findImage s image.imageId image.albumId = some image) :
    ((deleteImage s u image.albumId image.imageId).1.status = 200 ↔
       (u.userId = album.ownerId ∨ u.userId = image.uploadedBy))
    ∧ (¬(u.userId = album.ownerId ∨ u.userId = image.uploadedBy) →
        deleteImage s u image.albumId image.imageId =
          (errResp 403 "You do not have permission to delete this image", s)
        ∧ findImage (deleteImage s u image.albumId image.imageId).2
            image.imageId image.albumId = some image) := by
  by_cases hcan : (album.ownerId == u.userId || image.uploadedBy == u.userId) = true
  · have hor : u.userId = album.ownerId ∨ u.userId = image.uploadedBy := by
      rcases (Bool.or_eq_true _ _).mp hcan with h | h
      · exact Or.inl (eq_of_beq h).symm
      · exact Or.inr (eq_of_beq h).symm
    have hdel : deleteImage s u image.albumId image.imageId =
        (okResp 200,
          { s with images := s.images.eraseP (fun i => i.imageId == image.imageId) }) := by
      simp [deleteImage, hA, hI, hcan]
    constructor
    · rw [hdel]
      exact ⟨fun _ => hor, fun _ => rfl⟩
    · intro hn
      exact absurd hor hn
  · have hcan2 : (album.ownerId == u.userId || image.uploadedBy == u.userId) = false := by
      simpa using hcan
    have hparts := Bool.or_eq_false_iff.mp hcan2
    have hne1 : album.ownerId ≠ u.userId := by
      intro h
      rw [beq_iff_eq.mpr h] at hparts
      exact Bool.noConfusion hparts.1
    have hne2 : image.uploadedBy ≠ u.userId := by
      intro h
      rw [beq_iff_eq.mpr h] at hparts
      exact Bool.noConfusion hparts.2
    have hnor : ¬(u.userId = album.ownerId ∨ u.userId = image.uploadedBy) := by
      rintro (h | h)
      · exact hne1 h.symm
      · exact hne2 h.symm
    have hdel : deleteImage s u image.albumId image.imageId =
        (errResp 403 "You do not have permission to delete this image", s) := by
      simp [deleteImage, hA, hI, hcan2]
    constructor
    · rw [hdel]
      constructor
      · intro h
        simp [errResp] at h
      · intro h
        exact absurd h hnor
    · intro _
      refine ⟨hdel, ?_⟩
      rw [hdel]
      exact hI

/-- C4 witness: the stranger can delete neither; the uploader succeeds. -/
theorem C4_witness :
    (findAlbum sampleStore sampleImage.albumId = some sampleAlbum
      ∧ findImage sampleStore sampleImage.imageId sampleImage.albumId = some sampleImage
      ∧ ¬(strangerPrincipal.userId = sampleAlbum.ownerId ∨
            strangerPrincipal.userId = sampleImage.uploadedBy))
    ∧ deleteImage sampleStore strangerPrincipal sampleImage.albumId sampleImage.imageId =
        (errResp 403 "You do not have permission to delete this image", sampleStore)
    ∧ ((deleteImage sampleStore memberPrincipal sampleImage.albumId
          sampleImage.imageId).1.status = 200 ↔
        (memberPrincipal.userId = sampleAlbum.ownerId ∨
          memberPrincipal.userId = sampleImage.uploadedBy)) :=
  ⟨⟨by decide, by decide, by decide⟩,
    ((C4_deleteImage_permission sampleStore strangerPrincipal sampleAlbum sampleImage
      (by decide) (by decide)).2 (by decide)).1,
    (C4_deleteImage_permission sampleStore memberPrincipal sampleAlbum sampleImage
      (by decide) (by decide)).1⟩

/-- Behaviour of the favorite handler when the album, access and image
checks pass. -/
theorem setFavorite_found (s : Store) (u : Principal) (album : Album) (image : Image)
    (aid iid : String) (fav : Option Bool)
    (hA : findAlbum s aid = some album)
    (hAcc : hasAccess u album = true)
    (hI : findImage s iid aid = some image) :
    setFavorite s u aid iid fav =
      (okResp 200,
        saveImage s
          { image with
              isFavorite := match fav with
                | some b => b
                | none => !image.isFavorite }) := by
  simp [setFavorite, hA, hAcc, hI]

/-- C5: with access and an existing image, the favorite operation with an
explicit value stores that value, with no value stores the negation, twice
with no value restores the original record, and every other field is
unchanged (the stored record is the old one with only `isFavorite`
replaced). -/
theorem C5_favorite_toggle (s : Store) (u : Principal) (album : Album) (image : Image)
    (hA : findAlbum s image.albumId = some album)
    (hAcc : hasAccess u album = true)
    (hI : findImage s image.imageId image.albumId = some image) :
    (∀ b : Bool,
        findImage (setFavorite s u image.albumId image.imageId (some b)).2
          image.imageId image.albumId = some { image with isFavorite := b })
    ∧ (findImage (setFavorite s u image.albumId image.imageId none).2
          image.imageId image.albumId = some { image with isFavorite := !image.isFavorite })
    ∧ (findImage
          (setFavorite (setFavorite s u image.albumId image.imageId none).2
            u image.albumId image.imageId none).2
          image.imageId image.albumId = some image) := by
  have key2 : ∀ fav : Option Bool,
      (setFavorite s u image.albumId image.imageId fav).2 =
        saveImage s
          { image with
              isFavorite := match fav with
                | some b => b
                | none => !image.isFavorite } := by
    intro fav
    rw [setFavorite_found s u album image image.albumId image.imageId fav hA hAcc hI]
  refine ⟨?_, ?_, ?_⟩
  · intro b
    rw [key2 (some b)]
    exact findImage_saveImage s image { image with isFavorite := b }
      image.imageId image.albumId hI rfl rfl
  · rw [key2 none]
    exact findImage_saveImage s image { image with isFavorite := !image.isFavorite }
      image.imageId image.albumId hI rfl rfl
  · have hA1 : findAlbum (setFavorite s u image.albumId image.imageId none).2
        image.albumId = some album := by
      rw [key2 none]
      exact hA
    have hI1 : findImage (setFavorite s u image.albumId image.imageId none).2
        image.imageId image.albumId = some { image with isFavorite := !image.isFavorite } := by
      rw [key2 none]
      exact findImage_saveImage s image { image with isFavorite := !image.isFavorite }
        image.imageId image.albumId hI rfl rfl
    have key2b : (setFavorite (setFavorite s u image.albumId image.imageId none).2
        u image.albumId image.imageId none).2 =
        saveImage (setFavorite s u image.albumId image.imageId none).2
          { { image with isFavorite := !image.isFavorite } with
              isFavorite := !({ image with isFavorite := !image.isFavorite } : Image).isFavorite } := by
      rw [setFavorite_found (setFavorite s u image.albumId image.imageId none).2 u album
        { image with isFavorite := !image.isFavorite } image.albumId image.imageId none
        hA1 hAcc hI1]
    rw [key2b]
    have hfinal := findImage_saveImage (setFavorite s u image.albumId image.imageId none).2
      { image with isFavorite := !image.isFavorite }
      { { image with isFavorite := !image.isFavorite } with
          isFavorite := !({ image with isFavorite := !image.isFavorite } : Image).isFavorite }
      image.imageId image.albumId hI1 rfl rfl
    rw [hfinal]
    cases image
    simp

/-- C5 witness: the member toggles the favorite flag of `sampleImage`
twice and the stored record returns to the original. -/
theorem C5_witness :
    (findAlbum sampleStore sampleImage.albumId = some sampleAlbum
      ∧ hasAccess memberPrincipal sampleAlbum = true
      ∧ findImage sampleStore sampleImage.imageId sampleImage.albumId = some sampleImage)
    ∧ findImage
        (setFavorite (setFavorite sampleStore memberPrincipal sampleImage.albumId
            sampleImage.imageId none).2
          memberPrincipal sampleImage.albumId sampleImage.imageId none).2
        sampleImage.imageId sampleImage.albumId = some sampleImage :=
  ⟨⟨by decide, by decide, by decide⟩,
    (C5_favorite_toggle sampleStore memberPrincipal sampleAlbum sampleImage
      (by decide) (by decide) (by decide)).2.2⟩

/-- Behaviour of the comment handler when the text survives trimming and
the album, access and image checks pass. -/
theorem addComment_found (s : Store) (u : Principal) (album : Album) (image : Image)
    (c : String) (now : Nat)
    (hc : (c == "" || trimStr c == "") = false)
    (hA : findAlbum s image.albumId = some album)
    (hAcc : hasAccess u album = true)
    (hI : findImage s image.imageId image.albumId = some image) :
    addComment s u image.albumId image.imageId (some c) now =
      (okResp 200,
        saveImage s
          { image with
              comments := image.comments ++
                [{ userId := u.userId, userEmail := u.email, comment := trimStr c,
                   createdAt := now }] }) := by
  simp [addComment, hc, hA, hAcc, hI]

/-- C6: with access and an existing image, adding a comment fails with the
400 Validation error exactly when the text is empty after trimming; on
success the stored record is the old one with the new comment appended
last (so the previous comments are unchanged, keep their order, and the
length grows by exactly one), and the new comment carries the principal's
`userId` and `userEmail` and the `createdAt` timestamp. -/
theorem C6_addComment_append (s : Store) (u : Principal) (album : Album) (image : Image)
    (c : String) (now : Nat)
    (hA : findAlbum s image.albumId = some album)
    (hAcc : hasAccess u album = true)
    (hI : findImage s image.imageId image.albumId = some image) :
    ((addComment s u image.albumId image.imageId (some c) now).1 =
        errResp 400 "Comment cannot be empty" ↔ trimStr c = "")
    ∧ (trimStr c ≠ "" →
        (addComment s u image.albumId image.imageId (some c) now).1 = okResp 200
        ∧ findImage (addComment s u image.albumId image.imageId (some c) now).2
            image.imageId image.albumId =
          some { image with
                   comments := image.comments ++
                     [{ userId := u.userId, userEmail := u.email, comment := trimStr c,
                        createdAt := now }] }
        ∧ (image.comments ++
            [({ userId := u.userId, userEmail := u.email, comment := trimStr c,
                createdAt := now } : ImageComment)]).length = image.comments.length + 1) := by
  by_cases htr : trimStr c = ""
  · have hcond : (c == "" || trimStr c == "") = true := by
      rw [beq_iff_eq.mpr htr, Bool.or_true]
    have heq : addComment s u image.albumId image.imageId (some c) now =
        (errResp 400 "Comment cannot be empty", s) := by
      simp [addComment, hcond]
    constructor
    · exact ⟨fun _ => htr, fun _ => by rw [heq]⟩
    · intro hne
      exact absurd htr hne
  · have hc0 : c ≠ "" := by
      intro h
      subst h
      exact htr rfl
    have hcond : (c == "" || trimStr c == "") = false := by
      rw [beq_eq_false_iff_ne.mpr hc0, beq_eq_false_iff_ne.mpr htr]
      rfl
    have key := addComment_found s u album image c now hcond hA hAcc hI
    have key1 : (addComment s u image.albumId image.imageId (some c) now).1 = okResp 200 := by
      rw [key]
    have key2 : (addComment s u image.albumId image.imageId (some c) now).2 =
        saveImage s
          { image with
              comments := image.comments ++
                [{ userId := u.userId, userEmail := u.email, comment := trimStr c,
                   createdAt := now }] } := by
      rw [key]
    constructor
    · constructor
      · intro h
        rw [key1] at h
        exact absurd h (by decide)
      · intro h
        exact absurd h htr
    · intro _
      refine ⟨key1, ?_, by simp⟩
      rw [key2]
      exact findImage_saveImage s image _ image.imageId image.albumId hI rfl rfl

/-- C6 witness: the member appends the comment " nice! " to `sampleImage`;
the empty-after-trimming comment "  " is rejected. -/
theorem C6_witness :
    (findAlbum sampleStore sampleImage.albumId = some sampleAlbum
      ∧ hasAccess memberPrincipal sampleAlbum = true
      ∧ findImage sampleStore sampleImage.imageId sampleImage.albumId = some sampleImage
      ∧ trimStr " nice! " ≠ "")
    ∧ findImage (addComment sampleStore memberPrincipal sampleImage.albumId
          sampleImage.imageId (some " nice! ") 7).2
        sampleImage.imageId sampleImage.albumId =
      some { sampleImage with
               comments := sampleImage.comments ++
                 [{ userId := memberPrincipal.userId, userEmail := memberPrincipal.email,
                    comment := trimStr " nice! ", createdAt := 7 }] }
    ∧ ((addComment sampleStore memberPrincipal sampleImage.albumId
          sampleImage.imageId (some "  ") 7).1 =
        errResp 400 "Comment cannot be empty" ↔ trimStr "  " = "") :=
  ⟨⟨by decide, by decide, by decide, by decide⟩,
    ((C6_addComment_append sampleStore memberPrincipal sampleAlbum sampleImage " nice! " 7
      (by decide) (by decide) (by decide)).2 (by decide)).2.1,
    (C6_addComment_append sampleStore memberPrincipal sampleAlbum sampleImage "  " 7
      (by decide) (by decide) (by decide)).1⟩

/-- C7 counterexample: a request with no token and a request whose token
fails verification do NOT receive the same response — the middleware
answers the missing-token case with a different error message, so the
three failure cases are not indistinguishable in the response. -/
theorem C7_counterexample :
    verifyJWT none none (fun _ => JwtOutcome.malformedTok) ≠
      verifyJWT (some "sometoken") none (fun _ => JwtOutcome.malformedTok) := by
  intro h
  have : errResp 401 "No token provided" = errResp 401 "Invalid or expired token" := by
    simpa [verifyJWT, extractToken, truthyStr] using h
  simp [errResp] at this

/-- C7 (amended): every credential verification failure yields status 401,
and a malformed/invalid token is indistinguishable from an expired one (the
verifier's two error outcomes produce identical responses); a missing
token, however, receives a distinct error message, still with status 401. -/
theorem C7_unauthorized_collapse (cookieTok header : Option String)
    (verify : String → JwtOutcome) :
    (∀ r : HResponse, verifyJWT cookieTok header verify = Except.error r → r.status = 401)
    ∧ verifyJWT cookieTok header (fun _ => JwtOutcome.malformedTok) =
        verifyJWT cookieTok header (fun _ => JwtOutcome.expiredTok) := by
  constructor
  · intro r hr
    unfold verifyJWT at hr
    split at hr
    · injection hr with h
      rw [← h]
      rfl
    · split at hr
      · exact Except.noConfusion hr
      · injection hr with h
        rw [← h]
        rfl
      · injection hr with h
        rw [← h]
        rfl
  · unfold verifyJWT
    cases truthyStr (extractToken cookieTok header) with
    | none => rfl
    | some t => rfl

/-- C7 witness: a concrete failing verification answers 401. -/
theorem C7_witness :
    verifyJWT (some "tok") none (fun _ => JwtOutcome.expiredTok) =
      Except.error (errResp 401 "Invalid or expired token")
    ∧ (errResp 401 "Invalid or expired token").status = 401
    ∧ verifyJWT (some "tok") none (fun _ => JwtOutcome.malformedTok) =
        verifyJWT (some "tok") none (fun _ => JwtOutcome.expiredTok) :=
  ⟨rfl,
    (C7_unauthorized_collapse (some "tok") none (fun _ => JwtOutcome.expiredTok)).1
      (errResp 401 "Invalid or expired token") rfl,
    (C7_unauthorized_collapse (some "tok") none (fun _ => JwtOutcome.expiredTok)).2⟩

/-- C8: on upload with access, a literal list of tags is stored as-is, a
(nonempty) string that decodes to a list is stored as the decoded list, and
a string whose decoding fails still creates the image (201) with an empty
tag list — never a validation error. -/
theorem C8_upload_tags (decode : String → Option (List String)) (s : Store)
    (u : Principal) (album : Album) (f : FileInfo) (person fav : Option String)
    (cloud : CloudinaryResult) (fid : String) (now : Nat)
    (hA : findAlbum s album.albumId = some album)
    (hAcc : hasAccess u album = true) :
    (∀ l : List String,
        uploadImage decode s u album.albumId (some f) (some (TagsField.arr l))
            person fav cloud fid now =
          (okResp 201,
            { s with images := s.images ++
                [{ imageId := fid, albumId := album.albumId, name := f.originalname,
                   filename := f.originalname, cloudinaryUrl := cloud.secureUrl,
                   cloudinaryPublicId := cloud.publicId, tags := l,
                   person := person.getD "", isFavorite := fav == some "true",
                   comments := [], size := cloud.bytes, uploadedAt := now,
                   uploadedBy := u.userId }] }))
    ∧ (∀ (str : String) (l : List String), str ≠ "" → decode str = some l →
        uploadImage decode s u album.albumId (some f) (some (TagsField.str str))
            person fav cloud fid now =
          (okResp 201,
            { s with images := s.images ++
                [{ imageId := fid, albumId := album.albumId, name := f.originalname,
                   filename := f.originalname, cloudinaryUrl := cloud.secureUrl,
                   cloudinaryPublicId := cloud.publicId, tags := l,
                   person := person.getD "", isFavorite := fav == some "true",
                   comments := [], size := cloud.bytes, uploadedAt := now,
                   uploadedBy := u.userId }] }))
    ∧ (∀ str : String, decode str = none →
        uploadImage decode s u album.albumId (some f) (some (TagsField.str str))
            person fav cloud fid now =
          (okResp 201,
            { s with images := s.images ++
                [{ imageId := fid, albumId := album.albumId, name := f.originalname,
                   filename := f.originalname, cloudinaryUrl := cloud.secureUrl,
                   cloudinaryPublicId := cloud.publicId, tags := [],
                   person := person.getD "", isFavorite := fav == some "true",
                   comments := [], size := cloud.bytes, uploadedAt := now,
                   uploadedBy := u.userId }] })) := by
  refine ⟨?_, ?_, ?_⟩
  · intro l
    simp [uploadImage, hA, hAcc, parseTags]
  · intro str l hstr hdec
    have hs : (str == "") = false := beq_eq_false_iff_ne.mpr hstr
    have hpt : parseTags decode (some (TagsField.str str)) = l := by
      simp [parseTags, hs, hdec]
    simp [uploadImage, hA, hAcc, hpt]
  · intro str hdec
    have hpt : parseTags decode (some (TagsField.str str)) = [] := by
      by_cases hs : (str == "") = true
      · simp [parseTags, hs]
      · simp [parseTags, hs, hdec]
    simp [uploadImage, hA, hAcc, hpt]

/-- C8 witness: the member uploads with a tag string that decodes to
`["sunset", "beach"]` and the image stores that list; with an undecodable
tag string the image is still created with an empty tag list. -/
theorem C8_witness :
    (findAlbum sampleStore sampleAlbum.albumId = some sampleAlbum
      ∧ hasAccess memberPrincipal sampleAlbum = true
      ∧ ("tags-json" : String) ≠ ""
      ∧ (fun _ : String => some ["sunset", "beach"]) "tags-json" =
          some ["sunset", "beach"]
      ∧ (fun _ : String => (none : Option (List String))) "not-json" = none)
    ∧ uploadImage (fun _ => some ["sunset", "beach"]) sampleStore memberPrincipal
        sampleAlbum.albumId (some sampleFile) (some (TagsField.str "tags-json"))
        none none sampleCloud "I3" 4 =
      (okResp 201,
        { sampleStore with images := sampleStore.images ++
            [{ imageId := "I3", albumId := sampleAlbum.albumId, name := sampleFile.originalname,
               filename := sampleFile.originalname, cloudinaryUrl := sampleCloud.secureUrl,
               cloudinaryPublicId := sampleCloud.publicId, tags := ["sunset", "beach"],
               person := (none : Option String).getD "",
               isFavorite := (none : Option String) == some "true",
               comments := [], size := sampleCloud.bytes, uploadedAt := 4,
               uploadedBy := memberPrincipal.userId }] })
    ∧ uploadImage (fun _ => none) sampleStore memberPrincipal sampleAlbum.albumId
        (some sampleFile) (some (TagsField.str "not-json")) none none sampleCloud "I2" 3 =
      (okResp 201,
        { sampleStore with images := sampleStore.images ++
            [{ imageId := "I2", albumId := sampleAlbum.albumId, name := sampleFile.originalname,
               filename := sampleFile.originalname, cloudinaryUrl := sampleCloud.secureUrl,
               cloudinaryPublicId := sampleCloud.publicId, tags := [],
               person := (none : Option String).getD "",
               isFavorite := (none : Option String) == some "true",
               comments := [], size := sampleCloud.bytes, uploadedAt := 3,
               uploadedBy := memberPrincipal.userId }] }) :=
  ⟨⟨by decide, by decide, by decide, rfl, rfl⟩,
    (C8_upload_tags (fun _ => some ["sunset", "beach"]) sampleStore memberPrincipal
      sampleAlbum sampleFile none none sampleCloud "I3" 4 (by decide) (by decide)).2.1
      "tags-json" ["sunset", "beach"] (by decide) rfl,
    (C8_upload_tags (fun _ => none) sampleStore memberPrincipal sampleAlbum sampleFile
      none none sampleCloud "I2" 3 (by decide) (by decide)).2.2 "not-json" rfl⟩

/-- C9: for an existing album and its owner, a falsy new description
(absent or empty) keeps the prior value, and in every case the saved album
differs from the old one at most in `description` — `albumId`, `name`,
`ownerId`, `ownerEmail`, `sharedWith` and `createdAt` are unchanged. -/
theorem C9_updateDescription_frame (s : Store) (u : Principal) (album : Album)
    (hfind : findAlbum s album.albumId = some album)
    (howner : u.userId = album.ownerId) :
    (∀ desc : Option String,
        (updateDescription s u album.albumId desc).1 = okResp 200
        ∧ findAlbum (updateDescription s u album.albumId desc).2 album.albumId =
            some { albumId := album.albumId, name := album.name,
                   description := newDescVal album desc,
                   ownerId := album.ownerId, ownerEmail := album.ownerEmail,
                   sharedWith := album.sharedWith, createdAt := album.createdAt })
    ∧ (∀ desc : Option String, desc = none ∨ desc = some "" →
        newDescVal album desc = album.description) := by
  have hosh : (album.ownerId != u.userId) = false := by
    rw [← howner, bne_self_eq_false]
  constructor
  · intro desc
    have key : updateDescription s u album.albumId desc =
        (okResp 200, saveAlbum s { album with description := newDescVal album desc }) := by
      simp [updateDescription, hfind, hosh]
    constructor
    · rw [key]
    · have key2 : (updateDescription s u album.albumId desc).2 =
          saveAlbum s { album with description := newDescVal album desc } := by
        rw [key]
      rw [key2]
      exact findAlbum_saveAlbum s album _ hfind rfl
  · intro desc hdesc
    rcases hdesc with h | h
    · subst h
      rfl
    · subst h
      rfl

/-- C9 witness: updating `sampleAlbum` with an empty description keeps the
prior value and leaves the other fields unchanged. -/
theorem C9_witness :
    (findAlbum sampleStore sampleAlbum.albumId = some sampleAlbum
      ∧ ownerPrincipal.userId = sampleAlbum.ownerId
      ∧ ((some "" : Option String) = none ∨ (some "" : Option String) = some ""))
    ∧ newDescVal sampleAlbum (some "") = sampleAlbum.description
    ∧ findAlbum (updateDescription sampleStore ownerPrincipal sampleAlbum.albumId
          (some "")).2 sampleAlbum.albumId =
        some { albumId := sampleAlbum.albumId, name := sampleAlbum.name,
               description := newDescVal sampleAlbum (some ""),
               ownerId := sampleAlbum.ownerId, ownerEmail := sampleAlbum.ownerEmail,
               sharedWith := sampleAlbum.sharedWith, createdAt := sampleAlbum.createdAt } :=
  ⟨⟨by decide, rfl, Or.inr rfl⟩,
    (C9_updateDescription_frame sampleStore ownerPrincipal sampleAlbum
      (by decide) rfl).2 (some "") (Or.inr rfl),
    ((C9_updateDescription_frame sampleStore ownerPrincipal sampleAlbum
      (by decide) rfl).1 (some "")).2⟩

/-- C10: in the share and add-comment handlers the request-body validation
runs before the album lookup: a missing, non-array or empty `emails` field,
and a missing or empty-after-trimming comment, answer the 400 Validation
error with the state untouched, for every store — in particular when the
album does not exist or the caller has no relationship to it, so the
NotFound and Forbidden branches are never reached in those cases. -/
theorem C10_validation_before_lookup :
    ∀ (s : Store) (u : Principal) (aid iid : String) (now : Nat),
      shareAlbum s u aid none = (errResp 400 "Valid email array is required", s)
      ∧ shareAlbum s u aid (some EmailsField.notArr) =
          (errResp 400 "Valid email array is required", s)
      ∧ shareAlbum s u aid (some (EmailsField.arr [])) =
          (errResp 400 "Valid email array is required", s)
      ∧ addComment s u aid iid none now = (errResp 400 "Comment cannot be empty", s)
      ∧ (∀ c : String, trimStr c = "" →
          addComment s u aid iid (some c) now = (errResp 400 "Comment cannot be empty", s)) := by
  intro s u aid iid now
  refine ⟨rfl, rfl, rfl, rfl, ?_⟩
  intro c htr
  have hcond : (c == "" || trimStr c == "") = true := by
    rw [beq_iff_eq.mpr htr, Bool.or_true]
  simp [addComment, hcond]

/-- C10 witness: an empty store (no album at all) still answers 400 to a
share request without emails and to a whitespace-only comment. -/
theorem C10_witness :
    trimStr " " = ""
    ∧ shareAlbum { albums := [], images := [] } strangerPrincipal "missing" none =
        (errResp 400 "Valid email array is required", { albums := [], images := [] })
    ∧ addComment { albums := [], images := [] } strangerPrincipal "missing" "img"
        (some " ") 0 =
      (errResp 400 "Comment cannot be empty", { albums := [], images := [] }) :=
  ⟨by decide,
    (C10_validation_before_lookup { albums := [], images := [] } strangerPrincipal
      "missing" "img" 0).1,
    (C10_validation_before_lookup { albums := [], images := [] } strangerPrincipal
      "missing" "img" 0).2.2.2.2 " " (by decide)⟩

end KaviosPix
